import Mathlib

/-!
Verification of the MedTrain PDF-to-quiz pipeline.

This file gives a shallow embedding, in Lean 4, of the parts of the
repository that the specification's claims are about:

* `pdf_to_questions.py`: `clamp_num_questions`, `extract_text_from_pdf`,
  the three-tier completion ladder `call_openai_generate` (with its
  tenacity retry decorator), and the JSON-recovery logic of
  `generate_mcqs_to_file`;
* `create_form_from_json.py`: the per-question request construction of
  `create_form_from_json` (display item, grading item, processed count);
* `app.py`: the safety-check / truncation block of
  `_run_pipeline_on_pdf_path` and the surrounding orchestration.

Text is modelled as `List Char`.  `json.loads` is modelled by a small
executable JSON parser (`jsonLoads`) covering objects, arrays, strings,
integers and literals, with trailing-data detection, mirroring the
behaviour the recovery code relies on.
-/

namespace MedTrain

/-- JSON values, the result type of a successful `json.loads`. -/
inductive JsonVal where
  | null
  | bool (b : Bool)
  | num (n : Int)
  | str (s : List Char)
  | arr (elems : List JsonVal)
  | obj (members : List (List Char × JsonVal))

/-- JSON whitespace characters skipped by the parser. -/
def isJsonWs (c : Char) : Bool :=
  c = ' ' || c = '\t' || c = '\n' || c = '\r'

/-- Drop leading JSON whitespace. -/
def skipWs (cs : List Char) : List Char :=
  cs.dropWhile isJsonWs

/-- Decode a JSON string escape character. -/
def escChar (c : Char) : Option Char :=
  if c = '"' then some '"'
  else if c = '\\' then some '\\'
  else if c = '/' then some '/'
  else if c = 'n' then some '\n'
  else if c = 't' then some '\t'
  else if c = 'r' then some '\r'
  else none

/-- Parse the body of a JSON string after the opening quote; returns the
decoded characters and the remaining input after the closing quote. -/
def parseStringBody : List Char → Except String (List Char × List Char)
  | [] => .error "Unterminated string"
  | '"' :: rest => .ok ([], rest)
  | '\\' :: [] => .error "Unterminated string"
  | '\\' :: c :: rest =>
    match escChar c with
    | none => .error "Invalid escape"
    | some e =>
      match parseStringBody rest with
      | .error msg => .error msg
      | .ok (s, r) => .ok (e :: s, r)
  | c :: rest =>
    match parseStringBody rest with
    | .error msg => .error msg
    | .ok (s, r) => .ok (c :: s, r)

/-- Fold decimal digits into a natural number. -/
def digitsToNat (ds : List Char) : Nat :=
  ds.foldl (fun a c => 10 * a + (c.toNat - 48)) 0

/-- Parse a JSON integer (optional minus sign, then digits). -/
def parseNumber (cs : List Char) : Except String (Int × List Char) :=
  match cs with
  | '-' :: rest =>
    let ds := rest.takeWhile Char.isDigit
    if ds.isEmpty then .error "Expecting value"
    else .ok (-(Int.ofNat (digitsToNat ds)), rest.dropWhile Char.isDigit)
  | _ =>
    let ds := cs.takeWhile Char.isDigit
    if ds.isEmpty then .error "Expecting value"
    else .ok (Int.ofNat (digitsToNat ds), cs.dropWhile Char.isDigit)

mutual

/-- Fuel-bounded JSON value parser: returns the value and the remaining
input.  Mirrors `json.loads`'s grammar on objects, arrays, strings,
integers and literals. -/
def parseVal : Nat → List Char → Except String (JsonVal × List Char)
  | 0, _ => .error "Nesting too deep"
  | Nat.succ fuel, cs =>
    match skipWs cs with
    | [] => .error "Expecting value"
    | '"' :: rest =>
      match parseStringBody rest with
      | .error msg => .error msg
      | .ok (s, r) => .ok (.str s, r)
    | '[' :: rest =>
      match skipWs rest with
      | ']' :: r => .ok (.arr [], r)
      | cs2 =>
        match parseArrayTail fuel cs2 with
        | .error msg => .error msg
        | .ok (vs, r) => .ok (.arr vs, r)
    | '{' :: rest =>
      match skipWs rest with
      | '}' :: r => .ok (.obj [], r)
      | cs2 =>
        match parseObjTail fuel cs2 with
        | .error msg => .error msg
        | .ok (ms, r) => .ok (.obj ms, r)
    | 'n' :: 'u' :: 'l' :: 'l' :: rest => .ok (.null, rest)
    | 't' :: 'r' :: 'u' :: 'e' :: rest => .ok (.bool true, rest)
    | 'f' :: 'a' :: 'l' :: 's' :: 'e' :: rest => .ok (.bool false, rest)
    | c :: rest =>
      if c.isDigit || c = '-' then
        match parseNumber (c :: rest) with
        | .error msg => .error msg
        | .ok (n, r) => .ok (.num n, r)
      else .error "Expecting value"

/-- Parse the elements of a non-empty JSON array (after the opening
bracket and leading whitespace). -/
def parseArrayTail : Nat → List Char → Except String (List JsonVal × List Char)
  | 0, _ => .error "Nesting too deep"
  | Nat.succ fuel, cs =>
    match parseVal fuel cs with
    | .error msg => .error msg
    | .ok (v, r) =>
      match skipWs r with
      | ',' :: r2 =>
        match parseArrayTail fuel r2 with
        | .error msg => .error msg
        | .ok (vs, r3) => .ok (v :: vs, r3)
      | ']' :: r2 => .ok ([v], r2)
      | _ => .error "Expecting comma"

/-- Parse the members of a non-empty JSON object (after the opening
brace and leading whitespace). -/
def parseObjTail : Nat → List Char → Except String (List (List Char × JsonVal) × List Char)
  | 0, _ => .error "Nesting too deep"
  | Nat.succ fuel, cs =>
    match skipWs cs with
    | '"' :: rest =>
      match parseStringBody rest with
      | .error msg => .error msg
      | .ok (k, r) =>
        match skipWs r with
        | ':' :: r2 =>
          match parseVal fuel r2 with
          | .error msg => .error msg
          | .ok (v, r3) =>
            match skipWs r3 with
            | ',' :: r4 =>
              match parseObjTail fuel r4 with
              | .error msg => .error msg
              | .ok (ms, r5) => .ok ((k, v) :: ms, r5)
            | '}' :: r4 => .ok ([(k, v)], r4)
            | _ => .error "Expecting comma"
        | _ => .error "Expecting colon"
    | _ => .error "Expecting property name"

end

/-- The model of Python's `json.loads`: parse one JSON value and require
that nothing but whitespace follows (else `Extra data`). -/
def jsonLoads (cs : List Char) : Except String JsonVal :=
  match parseVal (2 * cs.length + 2) cs with
  | .error msg => .error msg
  | .ok (v, rest) =>
    if (skipWs rest).isEmpty then .ok v else .error "Extra data"

/-! ### The markdown-fence regex of `generate_mcqs_to_file`

`re.search(r'```(?:json)?\s*(\{.*?\})\s*```', text_content, re.DOTALL)`:
leftmost start position; the optional `json` tag is preferred when it is
present; `\s*` is deterministic before a non-whitespace literal; the lazy
`.*?` stops at the first `}` whose tail matches `\s*` then the closing
fence. -/

/-- Python's `\s` character class (also used by `str.strip`). -/
def isPyWs (c : Char) : Bool :=
  c = ' ' || c = '\t' || c = '\n' || c = '\r' || c = '\x0b' || c = '\x0c'

/-- The three-backtick fence delimiter. -/
def backticks : List Char := ['`', '`', '`']

/-- `\s*` followed by the closing fence. -/
def fenceClose (cs : List Char) : Bool :=
  backticks.isPrefixOf (cs.dropWhile isPyWs)

/-- Lazy scan of `\{.*?\}` followed by `\s*` and the closing fence:
stop at the first `}` whose tail completes the match; `acc` holds the
interior read so far.  Returns group 1 (braces included). -/
def lazyGroup (acc : List Char) : List Char → Option (List Char)
  | [] => none
  | c :: rest =>
    if c = '}' && fenceClose rest then some ('{' :: (acc ++ ['}']))
    else lazyGroup (acc ++ [c]) rest

/-- Try to match the full fence pattern starting exactly here; returns
group 1 on success. -/
def matchFenceAt (cs : List Char) : Option (List Char) :=
  if backticks.isPrefixOf cs then
    let afterTicks := cs.drop 3
    let tryBody : List Char → Option (List Char) := fun body =>
      match body.dropWhile isPyWs with
      | '{' :: rest => lazyGroup [] rest
      | _ => none
    match (if ("json".data).isPrefixOf afterTicks then tryBody (afterTicks.drop 4) else none) with
    | some g => some g
    | none => tryBody afterTicks
  else none

/-- `re.search`: try the pattern at every start position, left to right. -/
def searchFence : List Char → Option (List Char)
  | [] => none
  | c :: rest =>
    match matchFenceAt (c :: rest) with
    | some g => some g
    | none => searchFence rest

/-- The first-`{` / last-`}` extraction of `generate_mcqs_to_file`:
`text.find('{')`, `text.rfind('}')`, and the inclusive slice when both
exist and the last `}` is strictly after the first `{`. -/
def braceSlice (cs : List Char) : Option (List Char) :=
  match cs.findIdx? (fun c => c = '{'), cs.reverse.findIdx? (fun c => c = '}') with
  | some i, some k =>
    let j := cs.length - 1 - k
    if i < j then some ((cs.drop i).take (j - i + 1)) else none
  | _, _ => none

/-- The value bound to `payload` by the recovery logic: either parsed
JSON, or the sentinel dict
`{"_raw_text": ..., "_error": "json_decode_failed", "_exception": ...}`. -/
inductive Payload where
  | parsed (v : JsonVal)
  | sentinel (rawText : List Char) (errTag : String) (excMsg : String)

/-- The structured-result recovery of `generate_mcqs_to_file`
(`pdf_to_questions.py` lines 303-340): (1) direct `json.loads`; on
failure (2) fenced-block extraction — and, when a fence is found, its
interior is parsed and a failure there yields the sentinel directly;
only when no fence is found, (3) the first-`{`/last-`}` slice is parsed,
a failure yielding the sentinel with that parse's message; with no
usable braces the sentinel carries the original parse message. -/
def recover_payload (text : List Char) : Payload :=
  match jsonLoads text with
  | .ok v => .parsed v
  | .error e =>
    match searchFence text with
    | some g =>
      match jsonLoads g with
      | .ok v => .parsed v
      | .error e2 => .sentinel text "json_decode_failed" e2
    | none =>
      match braceSlice text with
      | some sub =>
        match jsonLoads sub with
        | .ok v => .parsed v
        | .error e3 => .sentinel text "json_decode_failed" e3
      | none => .sentinel text "json_decode_failed" e

/-! ### The three-tier completion ladder `call_openai_generate`
(`pdf_to_questions.py` lines 204-269) with its tenacity decorator
`retry(reraise=True, stop=stop_after_attempt(3),
wait=wait_exponential(multiplier=1, min=2, max=10),
retry=retry_if_exception_type(Exception))`. -/

/-- Outcome of one tier's API call. -/
inductive TierOutcome where
  | ok (text : List Char)      -- call returned string content
  | noText                     -- call succeeded but content was None
  | typeError (msg : String)   -- incompatibility-class error (TypeError)
  | otherError (msg : String)  -- generic failure (timeout, rate limit, ...)

/-- The environment's behaviour for the three tiers within one
invocation of the function body. -/
structure Attempt where
  tier1 : TierOutcome
  tier2 : TierOutcome
  tier3 : TierOutcome

/-- What a tier leaves in `text`: tiers 1 and 2 catch both `TypeError`
and generic exceptions (logging a warning) and leave `text` as `None`;
only a string content sets it. -/
def tierText : TierOutcome → Option (List Char)
  | .ok s => some s
  | _ => none

/-- Final `json.loads` of `call_openai_generate` (lines 262-269): parse
the text, or return the sentinel dict instead of raising. -/
def loadsOrSentinel (text : List Char) : Payload :=
  match jsonLoads text with
  | .ok v => .parsed v
  | .error e => .sentinel text "json_decode_failed" e

/-- One invocation of the `call_openai_generate` body: tier 2 runs only
when tier 1 left `text = None`, tier 3 only when tier 2 did too; tier 3
is the only place an exception escapes (`Except.error`). -/
def callOnce (a : Attempt) : Except String Payload :=
  match tierText a.tier1 with
  | some t => .ok (loadsOrSentinel t)
  | none =>
    match tierText a.tier2 with
    | some t => .ok (loadsOrSentinel t)
    | none =>
      match a.tier3 with
      | .ok t => .ok (loadsOrSentinel t)
      | .noText => .error "TypeError: json.loads(None)"
      | .typeError m => .error m
      | .otherError m => .error m

/-- The tenacity retry loop: run the whole body; on an escaping
exception re-run it while attempts remain, reraising the last error.
`k` is the index of the current attempt; the second argument counts the
retries still allowed.  Also returns the number of attempts used. -/
def tenacityRun (env : Nat → Attempt) : Nat → Nat → Except String Payload × Nat
  | k, 0 => (callOnce (env k), k + 1)
  | k, Nat.succ left =>
    match callOnce (env k) with
    | .ok p => (.ok p, k + 1)
    | .error _ => tenacityRun env (k + 1) left

/-- `call_openai_generate` under an environment giving each attempt's
tier outcomes: at most `stop_after_attempt(3)` invocations. -/
def call_openai_generate (env : Nat → Attempt) : Except String Payload × Nat :=
  tenacityRun env 0 2

/-- tenacity's `wait_exponential(multiplier, min, max)` at a given
attempt number: `multiplier * 2 ^ attemptNumber` clamped into
`[lo, hi]`. -/
def waitExponential (multiplier lo hi attemptNumber : Nat) : Nat :=
  max lo (min hi (multiplier * 2 ^ attemptNumber))

/-- The ladder's configured backoff: `multiplier=1, min=2, max=10`. -/
def ladderWait (attemptNumber : Nat) : Nat :=
  waitExponential 1 2 10 attemptNumber

/-! ### Per-question request construction of `create_form_from_json`
(`create_form_from_json.py` lines 374-443). -/

/-- A parsed MCQ as the form builder reads it: the stem, the option
texts (in order), and the `text` of the `answer` object when that
object is present (`(q.get("answer") or {}).get("text", "")`). -/
structure Question where
  stem : String
  options : List String
  answerText : Option String

/-- Requests appended to the batch: the display item (`createItem`,
with its RADIO choice question over the options) and the grading item
(`updateItem` with `correctAnswers` set). -/
inductive FormRequest where
  | createItem (title : String) (options : List String)
  | updateGrading (title : String) (correctAnswer : String)
deriving DecidableEq

/-- The `correct` value the builder computes for a question. -/
def correctOf (q : Question) : String :=
  q.answerText.getD ""

/-- One iteration of the question loop: append the display item; then,
when `correct` is non-empty (truthy) and not among the option values,
`continue` — no grading request, no `processed_count` increment;
otherwise append the grading request and increment `processed_count`. -/
def processQuestion (acc : List FormRequest × Nat) (q : Question) : List FormRequest × Nat :=
  let correct := correctOf q
  let requests := acc.1 ++ [FormRequest.createItem q.stem q.options]
  if correct ≠ "" ∧ correct ∉ q.options then (requests, acc.2)
  else (requests ++ [FormRequest.updateGrading q.stem correct], acc.2 + 1)

/-- The whole question loop: fold over the questions, starting from the
empty request list and `processed_count = 0`.  The completion summary
logs `processed_count`/`total`. -/
def processQuestions (qs : List Question) : List FormRequest × Nat :=
  qs.foldl processQuestion ([], 0)

/-- The skipped-for-grading count the summary exposes: questions seen
minus questions processed. -/
def skippedForGrading (qs : List Question) : Nat :=
  qs.length - (processQuestions qs).2

/-! ### The safety-check / truncation block of
`_run_pipeline_on_pdf_path` (`app.py` lines 512-532). -/

/-- The parsed MCQs artifact as the orchestrator reads it. -/
structure McqsDoc where
  sourceSummary : String
  questions : List Question

/-- Result of the safety-check block: whether the `except` branch ran
(the raised `ValueError` is caught and only logged), the in-memory
document afterwards, and the content written back to the canonical
artifact file, if any. -/
structure SafetyResult where
  errorLogged : Bool
  doc : McqsDoc
  written : Option McqsDoc

/-- `app.py` lines 513-524: empty `questions` raises
`ValueError('No questions generated from PDF')` — swallowed by the
enclosing `except Exception`, which logs it; more questions than
requested truncates to the first `num_questions` and rewrites the
artifact in place; otherwise nothing changes. -/
def safetyCheck (doc : McqsDoc) (numQuestions : Nat) : SafetyResult :=
  if doc.questions.isEmpty then ⟨true, doc, none⟩
  else if numQuestions < doc.questions.length then
    let truncated : McqsDoc := { doc with questions := doc.questions.take numQuestions }
    ⟨false, truncated, some truncated⟩
  else ⟨false, doc, none⟩

/-- Observable outcome of `_run_pipeline_on_pdf_path` past the
generation step, for a given parsed artifact. -/
structure PipelineOutcome where
  validationErrorLogged : Bool
  artifact : McqsDoc
  formCreationCalled : Bool
  success : Bool

/-- `_run_pipeline_on_pdf_path` after `generate_mcqs_to_file` produced
the artifact `file`: run the safety-check block (whose exceptions are
caught and logged), then unconditionally call `create_form_from_json`
and return a `success: True` result dict. -/
def runPipelineOnDoc (file : McqsDoc) (numQuestions : Nat) : PipelineOutcome :=
  let r := safetyCheck file numQuestions
  ⟨r.errorLogged, r.written.getD file, true, true⟩

/-! ### `clamp_num_questions` (`pdf_to_questions.py` lines 38-44). -/

/-- The outcome of Python's `int(raw)`: a numeric value, or a
`TypeError` / `ValueError` for non-numeric input. -/
inductive RawCount where
  | num (n : Int)
  | nonNumeric

/-- `clamp_num_questions(raw, default, low, high)`: `int(raw)` with the
default on conversion failure, then `max(low, min(high, n))`. -/
def clamp_num_questions (raw : RawCount) (default low high : Int) : Int :=
  let n := match raw with
    | .num n => n
    | .nonNumeric => default
  max low (min high n)

/-! ### `extract_text_from_pdf` (`pdf_to_questions.py` lines 110-128). -/

/-- What `page.extract_text()` did on one page: returned text (a
`None` result is already folded to `""` by `or ""`), or raised — in
which case the `except` branch substitutes `""`. -/
inductive PageResult where
  | ok (text : List Char)
  | extractFail

/-- The `page_text` the loop ends up with for a page. -/
def pageText : PageResult → List Char
  | .ok t => t
  | .extractFail => []

/-- The string appended to `pages_text` for 1-based page `i`. -/
def pageBlock (i : Nat) (p : PageResult) : List Char :=
  ("\n\n===== PAGE " ++ Nat.repr i ++ " START =====\n").data ++ pageText p
    ++ ("\n===== PAGE " ++ Nat.repr i ++ " END =====").data

/-- `enumerate(pages, start=i)`. -/
def numberPages (i : Nat) : List PageResult → List (Nat × PageResult)
  | [] => []
  | p :: rest => (i, p) :: numberPages (i + 1) rest

/-- Python's `sep.join(parts)`. -/
def joinSep (sep : List Char) : List (List Char) → List Char
  | [] => []
  | [x] => x
  | x :: y :: rest => x ++ sep ++ joinSep sep (y :: rest)

/-- Python's `str.strip()`: drop whitespace from both ends. -/
def pyStrip (cs : List Char) : List Char :=
  ((cs.dropWhile isPyWs).reverse.dropWhile isPyWs).reverse

/-- `extract_text_from_pdf`: `FileNotFoundError` when the path does not
resolve to a file; otherwise the stripped newline-join of the per-page
blocks, pages enumerated from 1. -/
def extract_text_from_pdf (fileExists : Bool) (pages : List PageResult) :
    Except String (List Char) :=
  if fileExists then
    .ok (pyStrip (joinSep ['\n'] ((numberPages 1 pages).map (fun p => pageBlock p.1 p.2))))
  else .error "PDF not found"

/-- The page-start boundary marker carrying the 1-based page number. -/
def startMarker (i : Nat) : List Char :=
  ("===== PAGE " ++ Nat.repr i ++ " START =====").data

/-- The page-end boundary marker carrying the 1-based page number. -/
def endMarker (i : Nat) : List Char :=
  ("===== PAGE " ++ Nat.repr i ++ " END =====").data

/-! ## Sample inputs used by witnesses -/

/-- A well-formed question whose answer matches option `b`. -/
def qGood : Question := ⟨"Stem one", ["a", "b", "c", "d"], some "b"⟩

/-- A question whose answer text matches none of its options. -/
def qBadAnswer : Question := ⟨"Stem two", ["a", "b", "c", "d"], some "zzz"⟩

/-- A question with no answer object at all. -/
def qNoAnswer : Question := ⟨"Stem three", ["a", "b", "c", "d"], none⟩

/-- A three-question artifact. -/
def docThree : McqsDoc := ⟨"summary", [qGood, qGood, qGood]⟩

/-- An artifact with an empty questions list. -/
def docEmpty : McqsDoc := ⟨"summary", []⟩

/-! ## Auxiliary lemmas about the question loop -/

/-- One loop iteration increases `processed_count` by at most one. -/
theorem processQuestion_count_le (acc : List FormRequest × Nat) (q : Question) :
    (processQuestion acc q).2 ≤ acc.2 + 1 := by
  unfold processQuestion
  by_cases h : correctOf q ≠ "" ∧ correctOf q ∉ q.options
  · simp [h]
  · simp [h]

/-- `processed_count` never exceeds the number of questions seen. -/
theorem foldl_processed_le (qs : List Question) :
    ∀ acc : List FormRequest × Nat, (qs.foldl processQuestion acc).2 ≤ acc.2 + qs.length := by
  induction qs with
  | nil => intro acc; simp
  | cons q rest ih =>
    intro acc
    have h1 := ih (processQuestion acc q)
    have h2 := processQuestion_count_le acc q
    simp only [List.foldl_cons, List.length_cons]
    omega

/-! ## Claims -/

/-- C8: for every input, `clamp_num_questions(x, default=6)` (with the
source defaults `low=1, high=20`) lies in `[1, 20]`, and a non-numeric
input — one on which `int(raw)` raises — yields exactly the default 6. -/
theorem clamp_num_questions_spec (raw : RawCount) :
    1 ≤ clamp_num_questions raw 6 1 20 ∧ clamp_num_questions raw 6 1 20 ≤ 20 ∧
      (raw = RawCount.nonNumeric → clamp_num_questions raw 6 1 20 = 6) := by
  cases raw with
  | num n =>
    simp only [clamp_num_questions]
    exact ⟨le_max_left _ _, max_le (by norm_num) (min_le_left _ _), fun h => nomatch h⟩
  | nonNumeric =>
    exact ⟨by decide, by decide, fun _ => rfl⟩

/-- Witness for C8: the theorem applied to a non-numeric input. -/
theorem clamp_num_questions_spec_witness :
    clamp_num_questions RawCount.nonNumeric 6 1 20 = 6 :=
  (clamp_num_questions_spec RawCount.nonNumeric).2.2 rfl

/-- C6: with more questions than requested, the safety-check block
truncates to the first `num_questions` entries in their original order
(`questions[:num_questions]`) and writes the truncated document back to
the canonical artifact (`written` holds the overwrite-in-place
content). -/
theorem truncation_truncates (doc : McqsDoc) (n : Nat) (h : n < doc.questions.length) :
    safetyCheck doc n
      = ⟨false, { doc with questions := doc.questions.take n },
          some { doc with questions := doc.questions.take n }⟩ := by
  have hne : doc.questions.isEmpty = false := by
    cases hq : doc.questions with
    | nil => rw [hq] at h; simp at h
    | cons a l => simp
  unfold safetyCheck
  simp [hne, h]

/-- Witness for C6: a 3-question artifact truncated to 2. -/
theorem truncation_truncates_witness :
    safetyCheck docThree 2
      = ⟨false, { docThree with questions := docThree.questions.take 2 },
          some { docThree with questions := docThree.questions.take 2 }⟩ :=
  truncation_truncates docThree 2 (by decide)

/-- C7: on an already-truncated document (`len(questions)` equal to the
requested count) the safety-check block leaves the in-memory document
unchanged and writes nothing back, i.e. re-running the truncation step
is a no-op on both the document and the persisted artifact. -/
theorem truncation_idempotent (doc : McqsDoc) (n : Nat) (h : doc.questions.length = n) :
    (safetyCheck doc n).doc = doc ∧ (safetyCheck doc n).written = none := by
  unfold safetyCheck
  cases hq : doc.questions.isEmpty with
  | true => simp
  | false =>
    have hlt : ¬ n < doc.questions.length := by omega
    simp [hlt]

/-- Witness for C7: the theorem applied to a 3-question artifact with
`num_questions = 3`. -/
theorem truncation_idempotent_witness :
    (safetyCheck docThree 3).doc = docThree ∧ (safetyCheck docThree 3).written = none :=
  truncation_idempotent docThree 3 (by decide)

/-- C5: a question whose `answer.text` is non-empty but matches none of
its option texts contributes exactly its display item (`createItem`)
and no grading request, and leaves `processed_count` unchanged — so the
skipped-for-grading count derived from the completion summary
(`total - processed`) goes up by one when such a question is
appended. -/
theorem answer_not_among_options_skips_grading (acc : List FormRequest × Nat)
    (qs : List Question) (q : Question)
    (h1 : correctOf q ≠ "") (h2 : correctOf q ∉ q.options) :
    processQuestion acc q = (acc.1 ++ [FormRequest.createItem q.stem q.options], acc.2) ∧
    skippedForGrading (qs ++ [q]) = skippedForGrading qs + 1 := by
  have hstep : ∀ a : List FormRequest × Nat,
      processQuestion a q = (a.1 ++ [FormRequest.createItem q.stem q.options], a.2) := by
    intro a
    unfold processQuestion
    simp [h1, h2]
  refine ⟨hstep acc, ?_⟩
  unfold skippedForGrading processQuestions
  rw [List.foldl_append]
  have hle := foldl_processed_le qs ([], 0)
  simp only [List.foldl_cons, List.foldl_nil, hstep, List.length_append, List.length_cons,
    List.length_nil]
  omega

/-- Witness for C5: a bad-answer question after one good question. -/
theorem answer_not_among_options_skips_grading_witness :
    processQuestion ([], 0) qBadAnswer
        = ([FormRequest.createItem qBadAnswer.stem qBadAnswer.options], 0) ∧
    skippedForGrading ([qGood] ++ [qBadAnswer]) = skippedForGrading [qGood] + 1 :=
  answer_not_among_options_skips_grading ([], 0) [qGood] qBadAnswer (by decide) (by decide)

/-- C10: a question whose computed `correct` is the empty string
(missing answer object or empty `answer.text`) bypasses the
answer-inclusion validation — Python's truthiness check `if correct`
fails — so the builder emits both the display item and a grading
request whose `correctAnswers` value is `""` even though no option has
that text, and counts the question as processed. -/
theorem empty_answer_bypasses_validation (acc : List FormRequest × Nat) (q : Question)
    (h1 : correctOf q = "") (_h2 : "" ∉ q.options) :
    processQuestion acc q
      = (acc.1 ++ [FormRequest.createItem q.stem q.options,
          FormRequest.updateGrading q.stem ""], acc.2 + 1) := by
  unfold processQuestion
  simp [h1]

/-- Witness for C10: a question with no answer object. -/
theorem empty_answer_bypasses_validation_witness :
    processQuestion ([], 0) qNoAnswer
      = ([FormRequest.createItem qNoAnswer.stem qNoAnswer.options,
          FormRequest.updateGrading qNoAnswer.stem ""], 1) :=
  empty_answer_bypasses_validation ([], 0) qNoAnswer (by decide) (by decide)

/-- C1 (code-bug evidence): on an artifact with an empty questions
list, `_run_pipeline_on_pdf_path` raises
`ValueError('No questions generated from PDF')` inside its own
`try` / `except Exception` block, which merely logs it — so the run
does NOT fail: `create_form_from_json` is still called and the function
returns a `success: True` result, contradicting the specified fatal
"no questions generated" behaviour. -/
theorem empty_questions_form_still_created :
    runPipelineOnDoc docEmpty 6 = ⟨true, docEmpty, true, true⟩ := rfl

/-! ## Recovery claims (C3, C4) -/

/-- The message carried by a failed parse. -/
def errMsgOf : Except String JsonVal → String
  | .error m => m
  | .ok _ => ""

/-- Raw completion text on which every recovery strategy fails:
no fence and no brace pair at all. -/
def noJsonText : List Char := "no braces at all".data

/-- Raw completion text whose fenced block has an unparseable interior
while the first-`\x7b` / last-`\x7d` slice is valid JSON. -/
def fenceShadowText : List Char :=
  "\x7b\"msg\": \"```json \x7bbroken\x7d ```\"\x7d trailing".data

/-- The spec's first-`\x7b` / last-`\x7d` example text. -/
def plainBraceText : List Char :=
  "Sure! \x7b\"questions\":[\x7b\"id\":\"Q1\"\x7d]\x7d Hope that helps.".data

/-- C4: when every applicable recovery strategy fails to parse, the
recoverer returns (rather than raising) the sentinel object carrying
the raw text, the `json_decode_failed` error tag, and the message of
the parse exception of the last strategy it attempted. -/
theorem all_strategies_fail_returns_sentinel (t : List Char) (e : String)
    (h1 : jsonLoads t = .error e)
    (h2 : ∀ g, searchFence t = some g → ∃ m, jsonLoads g = .error m)
    (h3 : ∀ s, braceSlice t = some s → ∃ m, jsonLoads s = .error m) :
    recover_payload t = .sentinel t "json_decode_failed"
      (match searchFence t with
       | some g => errMsgOf (jsonLoads g)
       | none =>
         match braceSlice t with
         | some s => errMsgOf (jsonLoads s)
         | none => e) := by
  unfold recover_payload
  rw [h1]
  cases hf : searchFence t with
  | some g =>
    obtain ⟨m, hm⟩ := h2 g hf
    simp [hm, errMsgOf]
  | none =>
    cases hb : braceSlice t with
    | some s =>
      obtain ⟨m, hm⟩ := h3 s hb
      simp [hm, errMsgOf]
    | none => simp

/-- Witness for C4: text with no fence and no braces; the sentinel
carries the direct parse's message. -/
theorem all_strategies_fail_returns_sentinel_witness :
    recover_payload noJsonText
      = .sentinel noJsonText "json_decode_failed" "Expecting value" :=
  all_strategies_fail_returns_sentinel noJsonText "Expecting value" rfl
    (by intro g hg; rw [show searchFence noJsonText = none from rfl] at hg; cases hg)
    (by intro s hs; rw [show braceSlice noJsonText = none from rfl] at hs; cases hs)

/-- C3 counterexample: on `fenceShadowText` the fenced block is found
(group `\x7bbroken\x7d`) and its interior fails to parse; the
first-`\x7b`/last-`\x7d` slice of the same text parses successfully,
yet the recoverer returns the sentinel — strategy (3) is NOT attempted
once a fence matched, contradicting the claim. -/
theorem fence_failure_skips_brace_extraction :
    searchFence fenceShadowText = some "\x7bbroken\x7d".data ∧
    jsonLoads ((braceSlice fenceShadowText).getD [])
      = .ok (.obj [("msg".data, .str "```json \x7bbroken\x7d ```".data)]) ∧
    recover_payload fenceShadowText
      = .sentinel fenceShadowText "json_decode_failed" "Expecting property name" :=
  ⟨rfl, rfl, rfl⟩

/-- C3 (amended): the recoverer applies direct parse, then fenced-block
extraction, then the first-`\x7b`/last-`\x7d` slice, stopping at the
first success — but the third strategy is reached only when NO fenced
block matches; when a fence matches, the result is decided entirely by
its interior (parsed value, or the sentinel on its parse failure). -/
theorem recovery_strategy_order (t : List Char) :
    (∀ v, jsonLoads t = .ok v → recover_payload t = .parsed v) ∧
    (∀ e g, jsonLoads t = .error e → searchFence t = some g →
      recover_payload t
        = (match jsonLoads g with
           | .ok v => .parsed v
           | .error e2 => .sentinel t "json_decode_failed" e2)) ∧
    (∀ e sub, jsonLoads t = .error e → searchFence t = none → braceSlice t = some sub →
      recover_payload t
        = (match jsonLoads sub with
           | .ok v => .parsed v
           | .error e3 => .sentinel t "json_decode_failed" e3)) := by
  refine ⟨?_, ?_, ?_⟩
  · intro v hv; unfold recover_payload; rw [hv]
  · intro e g he hg; unfold recover_payload; rw [he, hg]
  · intro e sub he hg hb; unfold recover_payload; rw [he, hg, hb]

/-- Witness for C3: the spec's example — prose around a JSON object,
no fence — recovered through the first-`\x7b`/last-`\x7d` slice. -/
theorem recovery_strategy_order_witness :
    recover_payload plainBraceText
      = .parsed (.obj [("questions".data, .arr [.obj [("id".data, .str "Q1".data)]])]) :=
  (recovery_strategy_order plainBraceText).2.2 "Expecting value"
    ("\x7b\"questions\":[\x7b\"id\":\"Q1\"\x7d]\x7d".data) rfl rfl rfl

/-! ## The completion-ladder claim (C2) -/

/-- The parsed value of `\x7b"a": 1\x7d`. -/
def vA : JsonVal := .obj [("a".data, .num 1)]

/-- Every attempt: a generic transient failure on tier 1, a good JSON
response on tier 2. -/
def timeoutThenTier2Env : Nat → Attempt := fun _ =>
  ⟨.otherError "Request timed out", .ok "\x7b\"a\": 1\x7d".data, .noText⟩

/-- An environment whose first two attempts fail on tier 3 and whose
third succeeds there. -/
def retriesEnv : Nat → Attempt := fun k =>
  if k = 0 then ⟨.noText, .noText, .otherError "timeout"⟩
  else if k = 1 then ⟨.noText, .noText, .otherError "rate limit"⟩
  else ⟨.noText, .noText, .ok "\x7b\"a\": 1\x7d".data⟩

/-- C2 counterexample: a generic transient failure (timeout) on tier 1
does NOT trigger a same-tier retry: in a single invocation (attempt
count 1) the ladder falls straight through to tier 2 and returns its
parsed response.  Under the claim, tier 1 would have been retried with
backoff before tier 2 was attempted. -/
theorem generic_failure_falls_through_immediately :
    call_openai_generate timeoutThenTier2Env = (.ok (.parsed vA), 1) := rfl

/-- C2 (amended): a later tier is attempted whenever the previous tier
raised ANY exception (incompatibility-class or generic — the two are
handled identically) or set no text; tiers 1 and 2 never let an
exception escape; only a tier-3 failure escapes the body, triggering
tenacity to re-run the whole three-tier ladder — at most 3 attempts,
reraising the last error, with every exponential-backoff wait clamped
into the 2-10 second window. -/
theorem ladder_retry_discipline (env : Nat → Attempt) :
    (∀ m m' : String, ∀ t2 t3 : TierOutcome,
       callOnce ⟨.otherError m, t2, t3⟩ = callOnce ⟨.typeError m', t2, t3⟩) ∧
    (∀ a : Attempt, ∀ m : String, callOnce a = .error m →
       tierText a.tier1 = none ∧ tierText a.tier2 = none) ∧
    ((call_openai_generate env).2 ≤ 3) ∧
    (∀ k, 2 ≤ ladderWait k ∧ ladderWait k ≤ 10) ∧
    (∀ p, callOnce (env 0) = .ok p → call_openai_generate env = (.ok p, 1)) ∧
    (∀ m0 m1, callOnce (env 0) = .error m0 → callOnce (env 1) = .error m1 →
       call_openai_generate env = (callOnce (env 2), 3)) := by
  refine ⟨fun m m' t2 t3 => rfl, ?_, ?_, ?_, ?_, ?_⟩
  · intro a m h
    unfold callOnce at h
    cases ht1 : tierText a.tier1 with
    | some t => rw [ht1] at h; exact nomatch h
    | none =>
      rw [ht1] at h
      cases ht2 : tierText a.tier2 with
      | some t => rw [ht2] at h; exact nomatch h
      | none => exact ⟨rfl, rfl⟩
  · unfold call_openai_generate tenacityRun
    cases callOnce (env 0) with
    | ok p => simp
    | error m =>
      simp only []
      unfold tenacityRun
      cases callOnce (env 1) with
      | ok p => simp
      | error m2 => simp [tenacityRun]
  · intro k
    unfold ladderWait waitExponential
    exact ⟨le_max_left _ _, max_le (by norm_num) (min_le_left _ _)⟩
  · intro p hp
    unfold call_openai_generate tenacityRun
    rw [hp]
  · intro m0 m1 h0 h1
    unfold call_openai_generate tenacityRun
    rw [h0]
    unfold tenacityRun
    rw [h1]
    rfl

/-- Witness for C2: two tier-3 failures make the whole ladder run three
times; the result is the third attempt's, reraised or returned as-is. -/
theorem ladder_retry_discipline_witness :
    call_openai_generate retriesEnv = (callOnce (retriesEnv 2), 3) :=
  (ladder_retry_discipline retriesEnv).2.2.2.2.2 "timeout" "rate limit" rfl rfl

/-! ## Text-extraction claim (C9) -/

/-- An element of the joined list is an infix of the join. -/
theorem infix_joinSep (sep : List Char) (l : List (List Char)) (x : List Char)
    (hx : x ∈ l) : x <:+: joinSep sep l := by
  induction l with
  | nil => cases hx
  | cons a rest ih =>
    cases rest with
    | nil =>
      rcases List.mem_cons.mp hx with h | h
      · rw [h]; exact List.infix_rfl
      · cases h
    | cons b rest2 =>
      rcases List.mem_cons.mp hx with h | h
      · exact h ▸ ⟨[], sep ++ joinSep sep (b :: rest2), by simp [joinSep, List.append_assoc]⟩
      · exact (ih h).trans ⟨a ++ sep, [], by simp [joinSep, List.append_assoc]⟩

/-- `dropWhile` preserves an infix that starts with a character the
predicate does not drop. -/
theorem infix_dropWhile (p : Char → Bool) (c : Char) (m l : List Char)
    (hc : p c = false) (h : (c :: m) <:+: l) :
    (c :: m) <:+: l.dropWhile p := by
  obtain ⟨s, t, rfl⟩ := h
  induction s with
  | nil =>
    simp only [List.nil_append, List.cons_append, List.dropWhile_cons, hc]
    exact ⟨[], t, by simp⟩
  | cons d s2 ih =>
    rw [List.cons_append, List.cons_append, List.dropWhile_cons]
    by_cases hd : p d = true
    · simpa [hd] using ih
    · simp only [hd, if_false]
      exact ⟨d :: s2, t, by simp⟩

/-- `pyStrip` preserves an infix whose first and last characters are
not whitespace. -/
theorem infix_pyStrip (c d : Char) (mid l : List Char)
    (hc : isPyWs c = false) (hd : isPyWs d = false)
    (h : (c :: (mid ++ [d])) <:+: l) :
    (c :: (mid ++ [d])) <:+: pyStrip l := by
  have h1 : (c :: (mid ++ [d])) <:+: l.dropWhile isPyWs :=
    infix_dropWhile isPyWs c (mid ++ [d]) l hc h
  have h2 := List.reverse_infix.mpr h1
  have hrev : (c :: (mid ++ [d])).reverse = d :: (mid.reverse ++ [c]) := by simp
  rw [hrev] at h2
  have h3 : d :: (mid.reverse ++ [c]) <:+: (l.dropWhile isPyWs).reverse.dropWhile isPyWs :=
    infix_dropWhile isPyWs d (mid.reverse ++ [c]) (l.dropWhile isPyWs).reverse hd h2
  unfold pyStrip
  apply List.reverse_infix.mp
  rw [List.reverse_reverse, hrev]
  exact h3

/-- The start marker written as head character, middle, last character
(both ends are `=`, never whitespace). -/
theorem startMarker_shape (i : Nat) :
    startMarker i
      = '=' :: (("==== PAGE ".data ++ (Nat.repr i).data ++ " START ====".data) ++ ['=']) := by
  unfold startMarker
  rw [String.data_append, String.data_append]
  rw [show "===== PAGE ".data = '=' :: "==== PAGE ".data by decide]
  rw [show " START =====".data = " START ====".data ++ ['='] by decide]
  simp [List.append_assoc]

/-- The end marker written as head character, middle, last character. -/
theorem endMarker_shape (i : Nat) :
    endMarker i
      = '=' :: (("==== PAGE ".data ++ (Nat.repr i).data ++ " END ====".data) ++ ['=']) := by
  unfold endMarker
  rw [String.data_append, String.data_append]
  rw [show "===== PAGE ".data = '=' :: "==== PAGE ".data by decide]
  rw [show " END =====".data = " END ====".data ++ ['='] by decide]
  simp [List.append_assoc]

/-- The page-block prefix decomposes around the start marker. -/
theorem blockPrefix_data (i : Nat) :
    ("\n\n===== PAGE " ++ Nat.repr i ++ " START =====\n").data
      = ['\n', '\n'] ++ startMarker i ++ ['\n'] := by
  unfold startMarker
  rw [String.data_append, String.data_append, String.data_append, String.data_append]
  rw [show "\n\n===== PAGE ".data = ['\n', '\n'] ++ "===== PAGE ".data by decide]
  rw [show " START =====\n".data = " START =====".data ++ ['\n'] by decide]
  simp [List.append_assoc]

/-- The page-block suffix decomposes around the end marker. -/
theorem blockSuffix_data (i : Nat) :
    ("\n===== PAGE " ++ Nat.repr i ++ " END =====").data
      = ['\n'] ++ endMarker i := by
  unfold endMarker
  rw [String.data_append, String.data_append, String.data_append, String.data_append]
  rw [show "\n===== PAGE ".data = ['\n'] ++ "===== PAGE ".data by decide]
  simp [List.append_assoc]

/-- Both boundary markers occur inside the page's block, whatever the
page's text (in particular for a failed page, whose text is empty). -/
theorem marker_infix_block (i : Nat) (p : PageResult) :
    startMarker i <:+: pageBlock i p ∧ endMarker i <:+: pageBlock i p := by
  unfold pageBlock
  rw [blockPrefix_data, blockSuffix_data]
  constructor
  · exact ⟨['\n', '\n'], ['\n'] ++ pageText p ++ (['\n'] ++ endMarker i),
      by simp [List.append_assoc]⟩
  · exact ⟨['\n', '\n'] ++ startMarker i ++ ['\n'] ++ pageText p ++ ['\n'], [],
      by simp [List.append_assoc]⟩

/-- The start marker survives `pyStrip`. -/
theorem startMarker_infix_strip (n : Nat) (l : List Char)
    (h : startMarker n <:+: l) : startMarker n <:+: pyStrip l := by
  rw [startMarker_shape] at h ⊢
  exact infix_pyStrip '=' '=' _ l (by decide) (by decide) h

/-- The end marker survives `pyStrip`. -/
theorem endMarker_infix_strip (n : Nat) (l : List Char)
    (h : endMarker n <:+: l) : endMarker n <:+: pyStrip l := by
  rw [endMarker_shape] at h ⊢
  exact infix_pyStrip '=' '=' _ l (by decide) (by decide) h

/-- The page at 0-based index `i` appears in the enumeration with
number `start + i`. -/
theorem numberPages_mem (pages : List PageResult) :
    ∀ start i p, pages.get? i = some p → (start + i, p) ∈ numberPages start pages := by
  induction pages with
  | nil => intro start i p h; cases h
  | cons q rest ih =>
    intro start i p h
    cases i with
    | zero =>
      have hq : q = p := by simpa using h
      subst hq
      simp [numberPages]
    | succ j =>
      have hm := ih (start + 1) j p (by simpa using h)
      have : start + (j + 1) = start + 1 + j := by omega
      rw [this]
      exact List.mem_cons_of_mem _ hm

/-- Replacing a failed page by an empty-text page leaves every page
block — and hence the mapped block list — unchanged. -/
theorem numberPages_set_fail (pages : List PageResult) :
    ∀ start i, pages.get? i = some PageResult.extractFail →
      (numberPages start (pages.set i (PageResult.ok []))).map (fun p => pageBlock p.1 p.2)
        = (numberPages start pages).map (fun p => pageBlock p.1 p.2) := by
  induction pages with
  | nil => intro start i h; cases h
  | cons q rest ih =>
    intro start i h
    cases i with
    | zero =>
      have hq : q = PageResult.extractFail := by simpa using h
      subst hq
      simp [numberPages, List.set]
      rfl
    | succ j =>
      have := ih (start + 1) j (by simpa using h)
      simp only [List.set, numberPages, List.map]
      rw [this]

/-- C9: (a) a path that does not resolve fails with the file-not-found
condition before any page is read; (b) a page-level extraction failure
is equivalent to that page having empty text — the rest of the document
is extracted exactly as before; and (c) the output still contains the
failed page's start and end boundary markers carrying its 1-based page
number. -/
theorem extract_text_partial_failure (pages : List PageResult) (i : Nat)
    (h : pages.get? i = some PageResult.extractFail) :
    (∀ ps : List PageResult, extract_text_from_pdf false ps = .error "PDF not found") ∧
    extract_text_from_pdf true pages
      = extract_text_from_pdf true (pages.set i (PageResult.ok [])) ∧
    (∃ out, extract_text_from_pdf true pages = .ok out ∧
       startMarker (i + 1) <:+: out ∧ endMarker (i + 1) <:+: out) := by
  refine ⟨fun ps => rfl, ?_, ?_⟩
  · unfold extract_text_from_pdf
    rw [numberPages_set_fail pages 1 i h]
  · have hmem : (1 + i, PageResult.extractFail) ∈ numberPages 1 pages :=
      numberPages_mem pages 1 i PageResult.extractFail h
    have hblock : pageBlock (1 + i) PageResult.extractFail
        ∈ (numberPages 1 pages).map (fun p => pageBlock p.1 p.2) :=
      List.mem_map.mpr ⟨(1 + i, PageResult.extractFail), hmem, rfl⟩
    have hjoin := infix_joinSep ['\n'] _ _ hblock
    have hcomm : 1 + i = i + 1 := by omega
    rw [hcomm] at hjoin
    refine ⟨_, rfl, ?_, ?_⟩
    · exact startMarker_infix_strip (i + 1) _
        ((marker_infix_block (i + 1) PageResult.extractFail).1.trans hjoin)
    · exact endMarker_infix_strip (i + 1) _
        ((marker_infix_block (i + 1) PageResult.extractFail).2.trans hjoin)

/-- A two-page PDF whose second page fails to extract. -/
def pagesW : List PageResult := [PageResult.ok "abc".data, PageResult.extractFail]

/-- Witness for C9: the theorem applied to a concrete two-page PDF with
a failing second page. -/
theorem extract_text_partial_failure_witness :
    extract_text_from_pdf false pagesW = .error "PDF not found" ∧
    extract_text_from_pdf true pagesW
      = extract_text_from_pdf true (pagesW.set 1 (PageResult.ok [])) ∧
    (∃ out, extract_text_from_pdf true pagesW = .ok out ∧
       startMarker 2 <:+: out ∧ endMarker 2 <:+: out) :=
  ⟨(extract_text_partial_failure pagesW 1 rfl).1 pagesW,
   (extract_text_partial_failure pagesW 1 rfl).2.1,
   (extract_text_partial_failure pagesW 1 rfl).2.2⟩

end MedTrain
